import Mathlib

/-
Verification development for the rtfs repository (a FUSE adapter exposing an
Artifactory repository as a read-only filesystem).

The embedding below is a shallow translation of src/rtfs.rs and
src/artifactory.rs.  External collaborators (the HTTP client transport, the
strptime routine of the time crate, the rand seed, and the contents of
uninitialized memory exposed by an unsafe set_len) are modelled as oracle
fields of an Env record; everything else is translated from the source.

Machine integers: the u64 handle counters are modelled as Nat with an
explicit modulus 2^64 at the single place where the source increments them
(overflow wraps in release builds).  A Rust panic (panic!, unwrap, expect)
terminates the process; it is modelled as the outer Except.error channel,
while errno values returned to the kernel (ENOTDIR, EISDIR, EINVAL) live in
an inner Except Int channel.
-/

set_option linter.unusedVariables false

/-- Modulus of the u64 handle counters: 2 ^ 64. -/
def U64_MOD : Nat := 18446744073709551616

/-- Timespec from the time crate: seconds and nanoseconds. -/
structure Timespec where
  sec : Int
  nsec : Int
deriving DecidableEq

/-- File kinds used by the adapter (fuse FileType, restricted to the two
variants the source produces). -/
inductive FileType where
  | RegularFile
  | Directory
deriving DecidableEq

/-- Caller identity fields of fuse RequestInfo that the source reads. -/
structure RequestInfo where
  uid : Nat
  gid : Nat
deriving DecidableEq

/-- TTL constant from rtfs.rs: Timespec { sec: 10, nsec: 0 }. -/
def TTL : Timespec := { sec := 10, nsec := 0 }

/-- ENOTDIR constant from rtfs.rs (libc value 20). -/
def ENOTDIR : Int := 20

/-- EISDIR constant from rtfs.rs (libc value 21). -/
def EISDIR : Int := 21

/-- libc EINVAL (22 on Linux), used by readdir for a missing handle. -/
def EINVAL : Int := 22

/-- DirEntry from artifactory.rs: one child reference of a directory
listing. -/
structure DirEntry where
  folder : Bool
  uri : String
deriving DecidableEq

/-- DirInfo from artifactory.rs: a directory listing. -/
structure DirInfo where
  children : List DirEntry
  created : String
  last_modified : String
  last_updated : String
  path : String
  repo : String
  uri : String
deriving DecidableEq

/-- Checksums from artifactory.rs. -/
structure Checksums where
  md5 : String
  sha1 : String
  sha256 : String
deriving DecidableEq

/-- FileInfo from artifactory.rs: a file listing.  Note it carries both a
storage-API uri field and a downloadUri field. -/
structure FileInfo where
  checksums : Checksums
  created : String
  created_by : String
  download_uri : String
  last_modified : String
  last_updated : String
  mime_type : String
  modified_by : String
  original_checksums : Checksums
  path : String
  repo : String
  size : String
  uri : String
deriving DecidableEq

/-- RtError from artifactory.rs. -/
structure RtError where
  message : String
  status : Int
deriving DecidableEq

/-- RtErrors from artifactory.rs. -/
structure RtErrors where
  errors : List RtError
deriving DecidableEq

/-- Listing from artifactory.rs: the untagged union returned by the storage
endpoint. -/
inductive Listing where
  | Directory (d : DirInfo)
  | File (f : FileInfo)
  | Error (e : RtErrors)
deriving DecidableEq

/-- Oracle record for the external collaborators of the adapter.
storage models Artifactory::storage (network transport plus JSON decoding;
an error is a transport or decode failure).  read_range models the body
bytes the ranged authenticated GET of Artifactory::read_file receives.
strptime models time::strptime with format %Y-%m-%dT%H:%M:%S.  rng_dir and
rng_file model the two rand::thread_rng gen_range draws in RtFS::new.
uninit_byte models the contents of uninitialized memory exposed by the
unsafe set_len call in RtFS::read. -/
structure Env where
  storage : String → Except String Listing
  read_range : String → Nat → Nat → Except String (List Nat)
  strptime : String → Option Timespec
  rng_dir : Nat
  rng_file : Nat
  uninit_byte : Nat → Nat

/-- Rust str::starts_with for a string pattern. -/
def str_starts_with (s pat : String) : Bool :=
  pat.data.isPrefixOf s.data

/-- Byte slicing s[n..] of the source, modelled as dropping n characters
(the source only slices behind an ASCII separator, where the two agree). -/
def str_drop (s : String) (n : Nat) : String :=
  String.mk (s.data.drop n)

/-- Rust str::parse::<u64>: an optional leading plus sign, then one or more
decimal digits, with the value required to fit in 64 bits. -/
def parse_u64 (s : String) : Option Nat :=
  let cs := match s.data with
    | '+' :: rest => rest
    | cs => cs
  if cs = [] then none
  else if cs.all (fun c => c.isDigit) then
    let v := cs.foldl (fun acc c => acc * 10 + (c.toNat - 48)) 0
    if v < U64_MOD then some v else none
  else none

/-- Worker for trim_start_matches: repeatedly strip the pattern from the
front while it is a prefix; the fuel (initially the length of the subject)
bounds the number of strips. -/
def trim_chars (pat : List Char) : Nat → List Char → List Char
  | 0, s => s
  | fuel + 1, s =>
    if pat.isPrefixOf s then trim_chars pat fuel (s.drop pat.length) else s

/-- Rust str::trim_start_matches with a string pattern: removes every
repetition of the pattern from the front (an empty pattern strips
nothing). -/
def trim_start_matches (s pat : String) : String :=
  if pat.isEmpty then s
  else String.mk (trim_chars pat.data s.data.length s.data)

/-- timestamp_to_timespec from rtfs.rs: parse a remote timestamp with
time::strptime (modelled by the strptime oracle); a parse failure is an
error that the callers turn into a panic. -/
def timestamp_to_timespec (env : Env) (timestamp : String) : Except String Timespec :=
  match env.strptime timestamp with
  | some t => Except.ok t
  | none => Except.error "panic: timestamp parse"

/-- Lookup in an association list modelling a HashMap (first match). -/
def alist_lookup {α β : Type} [DecidableEq α] : List (α × β) → α → Option β
  | [], _ => none
  | (k2, v) :: rest, k => if k2 = k then some v else alist_lookup rest k

/-- Removal of a key from an association list (HashMap::remove). -/
def alist_erase {α β : Type} [DecidableEq α] : List (α × β) → α → List (α × β)
  | [], _ => []
  | (k2, v) :: rest, k =>
    if k2 = k then alist_erase rest k else (k2, v) :: alist_erase rest k

/-- Insertion into an association list (HashMap::insert replaces any
existing binding of the key). -/
def alist_insert {α β : Type} [DecidableEq α] (l : List (α × β)) (k : α) (v : β) :
    List (α × β) :=
  (k, v) :: alist_erase l k

/-- HashMap::contains_key. -/
def alist_contains {α β : Type} [DecidableEq α] (l : List (α × β)) (k : α) : Bool :=
  (alist_lookup l k).isSome

/-- FileAttr record built by stat_for_path (fuse FileAttr). -/
structure FileAttr where
  size : Nat
  blocks : Nat
  atime : Timespec
  mtime : Timespec
  ctime : Timespec
  crtime : Timespec
  kind : FileType
  perm : Nat
  nlink : Nat
  uid : Nat
  gid : Nat
  rdev : Nat
  flags : Nat
deriving DecidableEq

/-- FsInfo from rtfs.rs: the per-handle snapshot of attributes and path. -/
structure FsInfo where
  attr : FileAttr
  path : String
deriving DecidableEq

/-- Mutable state of the RtFS struct: the two handle tables, the two handle
counters, and the locator cache _uris. -/
structure FsState where
  dirHandles : List (Nat × FsInfo)
  fileHandles : List (Nat × FsInfo)
  lastDirHandle : Nat
  lastFileHandle : Nat
  uris : List (String × String)
deriving DecidableEq

/-- rand gen_range(lo, hi): a value in the interval from lo inclusive to hi
exclusive, selected by the seed. -/
def gen_range (lo hi seed : Nat) : Nat :=
  lo + seed % (hi - lo)

/-- RtFS::new: empty tables and caches; the counters are seeded inside
[0xaaaa, u64::MAX / 2) from the thread rng. -/
def RtFS.new (env : Env) : FsState :=
  { dirHandles := []
    fileHandles := []
    lastDirHandle := gen_range 0xaaaa ((U64_MOD - 1) / 2) env.rng_dir
    lastFileHandle := gen_range 0xaaaa ((U64_MOD - 1) / 2) env.rng_file
    uris := [] }

/-- Path normalization of stat_for_path: the root path becomes the empty
string, a leading separator is stripped, and the result is joined under the
repository name. -/
def stat_query_path (repo path : String) : String :=
  let path1 := if path = "/" then "" else path
  let path2 := if str_starts_with path1 "/" then str_drop path1 1 else path1
  repo ++ "/" ++ path2

/-- Kind projection of stat_for_path: File maps to RegularFile, everything
else (Directory and Error alike) to Directory. -/
def listing_kind : Listing → FileType
  | Listing.File _ => FileType.RegularFile
  | Listing.Directory _ => FileType.Directory
  | _ => FileType.Directory

/-- Size projection of stat_for_path: the parsed size string for a File
(parse failure is an unwrap panic), the 4096 sentinel otherwise. -/
def listing_size : Listing → Option Nat
  | Listing.File fi => parse_u64 fi.size
  | _ => some 4096

/-- Timestamp projection of stat_for_path: parse the selected field of a
File or Directory listing, and use Timespec::new(1, 1) otherwise. -/
def listing_time (env : Env) (ft : FileInfo → String) (dt : DirInfo → String) :
    Listing → Except String Timespec
  | Listing.File fi => timestamp_to_timespec env (ft fi)
  | Listing.Directory di => timestamp_to_timespec env (dt di)
  | _ => Except.ok (Timespec.mk 1 1)

/-- Side effect of stat_for_path on the locator cache: for a File listing
the uri field of the listing is inserted under the query path with the
repository name trimmed from its front; other listings leave the cache
unchanged.  In the source the insert happens before the attribute record is
built; since a later parse panic aborts the process, applying it at the
success exit is observationally equivalent. -/
def stat_update_uris (st : FsState) (qpath repo : String) : Listing → FsState
  | Listing.File f =>
    { st with uris := alist_insert st.uris (trim_start_matches qpath repo) f.uri }
  | _ => st

/-- RtFS::stat_for_path: normalize the path, query the storage endpoint
(a transport error is a panic), project kind, size and the three
timestamps, and cache the uri of a File listing. -/
def stat_for_path (env : Env) (repo : String) (st : FsState) (path : String)
    (req : RequestInfo) : Except String (FileAttr × FsState) :=
  match env.storage (stat_query_path repo path) with
  | Except.error e => Except.error ("panic: storage: " ++ e)
  | Except.ok listing =>
    match listing_size listing with
    | none => Except.error "panic: size unwrap"
    | some size =>
      match listing_time env (fun fi => fi.last_updated) (fun di => di.last_updated) listing with
      | Except.error e => Except.error e
      | Except.ok atime =>
      match listing_time env (fun fi => fi.last_modified) (fun di => di.last_modified) listing with
      | Except.error e => Except.error e
      | Except.ok mtime =>
      match listing_time env (fun fi => fi.created) (fun di => di.created) listing with
      | Except.error e => Except.error e
      | Except.ok ctime =>
        Except.ok
          ({ size := size
             blocks := 0
             atime := atime
             mtime := mtime
             ctime := ctime
             crtime := Timespec.mk 0 0
             kind := listing_kind listing
             perm := 0o666
             nlink := 1
             uid := req.uid
             gid := req.gid
             rdev := 0
             flags := 0 },
           stat_update_uris st (stat_query_path repo path) repo listing)

/-- RtFS::getattr: delegate to stat_for_path; a stat failure hits the
expect call and panics, a success is returned with the TTL. -/
def RtFS.getattr (env : Env) (repo : String) (st : FsState) (path : String)
    (req : RequestInfo) : Except String ((Timespec × FileAttr) × FsState) :=
  match stat_for_path env repo st path req with
  | Except.ok (attr, st1) => Except.ok ((TTL, attr), st1)
  | Except.error e => Except.error ("panic: boo: " ++ e)

/-- RtFS::get_dir_handle: increment the directory handle counter (u64
wrapping) and register the FsInfo snapshot under the new handle. -/
def get_dir_handle (st : FsState) (fs_info : FsInfo) : Nat × FsState :=
  let dh := (st.lastDirHandle + 1) % U64_MOD
  (dh, { st with
          lastDirHandle := dh
          dirHandles := alist_insert st.dirHandles dh fs_info })

/-- RtFS::get_file_handle: increment the file handle counter (u64 wrapping)
and register the FsInfo snapshot under the new handle. -/
def get_file_handle (st : FsState) (fs_info : FsInfo) : Nat × FsState :=
  let fh := (st.lastFileHandle + 1) % U64_MOD
  (fh, { st with
          lastFileHandle := fh
          fileHandles := alist_insert st.fileHandles fh fs_info })

/-- RtFS::opendir: stat the path; a Directory kind allocates a directory
handle, anything else is rejected with ENOTDIR. -/
def RtFS.opendir (env : Env) (repo : String) (st : FsState) (path : String)
    (req : RequestInfo) : Except String (Except Int (Nat × Nat) × FsState) :=
  match RtFS.getattr env repo st path req with
  | Except.error e => Except.error e
  | Except.ok ((_, attr), st1) =>
    match attr.kind with
    | FileType.Directory =>
      let r := get_dir_handle st1 { attr := attr, path := path }
      Except.ok (Except.ok (r.1, 0), r.2)
    | _ => Except.ok (Except.error ENOTDIR, st1)

/-- RtFS::open: stat the path; a RegularFile kind allocates a file handle,
anything else is rejected with EISDIR. -/
def RtFS.open_ (env : Env) (repo : String) (st : FsState) (path : String)
    (req : RequestInfo) : Except String (Except Int (Nat × Nat) × FsState) :=
  match RtFS.getattr env repo st path req with
  | Except.error e => Except.error e
  | Except.ok ((_, attr), st1) =>
    match attr.kind with
    | FileType.RegularFile =>
      let r := get_file_handle st1 { attr := attr, path := path }
      Except.ok (Except.ok (r.1, 0), r.2)
    | _ => Except.ok (Except.error EISDIR, st1)

/-- RtFS::releasedir: remove the handle from the directory table when
present; always succeed. -/
def RtFS.releasedir (st : FsState) (_path : String) (fh : Nat) :
    Except Int Unit × FsState :=
  let dh :=
    if alist_contains st.dirHandles fh then alist_erase st.dirHandles fh
    else st.dirHandles
  (Except.ok (), { st with dirHandles := dh })

/-- RtFS::release: remove the handle from the file table when present;
always succeed. -/
def RtFS.release (st : FsState) (_path : String) (fh : Nat) :
    Except Int Unit × FsState :=
  let fhs :=
    if alist_contains st.fileHandles fh then alist_erase st.fileHandles fh
    else st.fileHandles
  (Except.ok (), { st with fileHandles := fhs })

/-- DirEntry::get_name: the uri field with its first byte sliced off
(the source would abort on an empty uri; for the ASCII separator it strips,
the byte slice agrees with dropping one character). -/
def DirEntry.get_name (e : DirEntry) : String :=
  str_drop e.uri 1

/-- DirectoryEntry handed back to fuse by readdir. -/
structure DirectoryEntry where
  name : String
  kind : FileType
deriving DecidableEq

/-- Projection of one remote child reference to a readdir entry, as built
in the readdir loop of rtfs.rs. -/
def dir_entry_of (item : DirEntry) : DirectoryEntry :=
  { name := DirEntry.get_name item
    kind := if item.folder then FileType.Directory else FileType.RegularFile }

/-- RtFS::readdir: a zero handle is EINVAL; otherwise the storage endpoint
is queried for the repo-joined (unnormalized) path.  A transport error or
an Error listing yields the empty entry list, a File listing panics, a
Directory listing is mapped child by child. -/
def RtFS.readdir (env : Env) (repo : String) (st : FsState) (path : String)
    (fh : Nat) : Except String (Except Int (List DirectoryEntry) × FsState) :=
  if fh = 0 then Except.ok (Except.error EINVAL, st)
  else
    match env.storage (repo ++ "/" ++ path) with
    | Except.error _ => Except.ok (Except.ok [], st)
    | Except.ok (Listing.File _) =>
      Except.error "panic: readdir called for non-directory entry"
    | Except.ok (Listing.Error _) => Except.ok (Except.ok [], st)
    | Except.ok (Listing.Directory d) =>
      Except.ok (Except.ok (d.children.map dir_entry_of), st)

/-- Artifactory::read_file: perform the ranged GET (read_range oracle) and
copy the body into the supplied buffer with Response::copy_to, whose Write
instance for a byte vector appends. -/
def Artifactory.read_file (env : Env) (uri : String) (offset : Nat) (size : Nat)
    (buf : List Nat) : Except String (List Nat) :=
  match env.read_range uri offset size with
  | Except.ok bytes => Except.ok (buf ++ bytes)
  | Except.error e => Except.error e

/-- RtFS::read: build a buffer of size uninitialized bytes (with_capacity
plus unsafe set_len), look the path up in the locator cache (a miss
panics), fetch through the client (a transport failure hits expect and
panics) and hand the resulting buffer to the callback. -/
def RtFS.read (env : Env) (st : FsState) (path : String) (_fh : Nat)
    (offset : Nat) (size : Nat) : Except String (List Nat × FsState) :=
  let data := (List.range size).map env.uninit_byte
  match alist_lookup st.uris path with
  | some uri =>
    match Artifactory.read_file env uri offset size data with
    | Except.ok data2 => Except.ok (data2, st)
    | Except.error e => Except.error ("panic: could not read file: " ++ e)
  | none => Except.error "panic: at the disco"

/-- Sample timestamp value produced by the strptime oracle in the concrete
environments below. -/
def ts0 : Timespec := { sec := 1, nsec := 0 }

/-- Sample fuse request identity. -/
def req0 : RequestInfo := { uid := 0, gid := 0 }

/-- Sample child reference of the root directory listing. -/
def org_child : DirEntry := { folder := true, uri := "/org" }

/-- Sample directory listing with a single folder child. -/
def d_root : DirInfo :=
  { children := [org_child]
    created := "2020-01-01T00:00:00"
    last_modified := "2020-01-02T00:00:00"
    last_updated := "2020-01-03T00:00:00"
    path := ""
    repo := "r"
    uri := "" }

/-- Sample file listing; its storage-API uri and its downloadUri differ, as
they do in the remote JSON. -/
def f_jar : FileInfo :=
  { checksums := { md5 := "", sha1 := "", sha256 := "" }
    created := "2020-01-01T00:00:00"
    created_by := "u"
    download_uri := "http://h/r/f.jar"
    last_modified := "2020-01-02T00:00:00"
    last_updated := "2020-01-03T00:00:00"
    mime_type := "application/java-archive"
    modified_by := "u"
    original_checksums := { md5 := "", sha1 := "", sha256 := "" }
    path := "/f.jar"
    repo := "r"
    size := "1024"
    uri := "http://h/api/storage/r/f.jar" }

/-- Sample file listing whose size field does not parse as a number. -/
def f_bad : FileInfo :=
  { f_jar with size := "12cd" }

/-- Sample remote error payload. -/
def errs0 : RtErrors :=
  { errors := [{ message := "Not Found", status := 404 }] }

/-- Environment whose storage endpoint always reports the sample directory
listing, with all timestamps parseable and rng seeds zero. -/
def envD : Env :=
  { storage := fun _ => Except.ok (Listing.Directory d_root)
    read_range := fun u _ _ =>
      if u = "http://h/api/storage/r/f.jar" then Except.ok [7, 8]
      else Except.ok [1, 2, 3]
    strptime := fun _ => some ts0
    rng_dir := 0
    rng_file := 0
    uninit_byte := fun _ => 0 }

/-- Environment whose storage endpoint always reports the sample file
listing. -/
def envF : Env :=
  { envD with storage := fun _ => Except.ok (Listing.File f_jar) }

/-- Environment whose storage endpoint always reports an Error listing. -/
def envE : Env :=
  { envD with storage := fun _ => Except.ok (Listing.Error errs0) }

/-- Environment whose storage endpoint always reports the file listing with
the malformed size field. -/
def envBad : Env :=
  { envD with storage := fun _ => Except.ok (Listing.File f_bad) }

/-- Small concrete adapter state with empty tables. -/
def st_empty : FsState :=
  { dirHandles := []
    fileHandles := []
    lastDirHandle := 100
    lastFileHandle := 200
    uris := [] }

/-- Attribute record that stat_for_path produces for the sample directory
listing under req0. -/
def attrD : FileAttr :=
  { size := 4096
    blocks := 0
    atime := ts0
    mtime := ts0
    ctime := ts0
    crtime := Timespec.mk 0 0
    kind := FileType.Directory
    perm := 0o666
    nlink := 1
    uid := 0
    gid := 0
    rdev := 0
    flags := 0 }

/-- Attribute record that stat_for_path produces for the sample file
listing under req0. -/
def attrF : FileAttr :=
  { attrD with size := 1024, kind := FileType.RegularFile }

/-- Attribute record that stat_for_path produces for an Error listing under
req0: a directory of size 4096 with all timestamps Timespec::new(1, 1). -/
def attrE : FileAttr :=
  { attrD with
      atime := Timespec.mk 1 1
      mtime := Timespec.mk 1 1
      ctime := Timespec.mk 1 1 }

/-- Handle snapshot stored when the root directory is opened under envD. -/
def fsiRoot : FsInfo := { attr := attrD, path := "/" }

/-- State after the first opendir of the root on a fresh RtFS state under
envD (counters seeded at 0xaaaa by the zero rng seeds). -/
def st_after0 : FsState :=
  { dirHandles := [(0xaaab, fsiRoot)]
    fileHandles := []
    lastDirHandle := 0xaaab
    lastFileHandle := 0xaaaa
    uris := [] }

/-- State whose locator cache already binds the path of the C1 experiment
to the locator L. -/
def stC1 : FsState :=
  { st_empty with uris := [("/f", "L")] }

/-- State produced by stat_for_path on the path /f.jar from st_empty under
envF: only the locator cache changes. -/
def stF4 : FsState :=
  { st_empty with uris := [("/f.jar", "http://h/api/storage/r/f.jar")] }

/-- State produced by stat_for_path on the path /a.jar from st_empty under
envF. -/
def stF6 : FsState :=
  { st_empty with uris := [("/a.jar", "http://h/api/storage/r/f.jar")] }

/-- Populated state used by the release frame witness. -/
def stR : FsState :=
  { dirHandles := [(5, fsiRoot), (6, fsiRoot)]
    fileHandles := [(5, fsiRoot)]
    lastDirHandle := 10
    lastFileHandle := 11
    uris := [("/f", "L")] }

/-- stR after releasing directory handle 5. -/
def stRd : FsState :=
  { stR with dirHandles := [(6, fsiRoot)] }

/-- Handle registry invariant: every currently open handle of a table is
nonzero, bounded by the counter of its table, and the handles of a table
are pairwise distinct. -/
def HandleInv (st : FsState) : Prop :=
  (∀ p ∈ st.dirHandles, p.1 ≠ 0 ∧ p.1 ≤ st.lastDirHandle) ∧
  (st.dirHandles.map Prod.fst).Nodup ∧
  (∀ p ∈ st.fileHandles, p.1 ≠ 0 ∧ p.1 ≤ st.lastFileHandle) ∧
  (st.fileHandles.map Prod.fst).Nodup

/-- Iterated opendir on a fixed path, threading the state and dropping the
returned handles; an operation panic aborts the iteration. -/
def iter_opendir (env : Env) (repo path : String) (req : RequestInfo) :
    Nat → FsState → Except String FsState
  | 0, st => Except.ok st
  | n + 1, st =>
    match RtFS.opendir env repo st path req with
    | Except.ok (_, st1) => iter_opendir env repo path req n st1
    | Except.error e => Except.error e

/-- Lookup misses every key strictly above a bound on all stored keys. -/
theorem alist_lookup_eq_none_of_lt {β : Type} {l : List (Nat × β)} {b k : Nat}
    (hb : ∀ p ∈ l, p.1 ≤ b) (hk : b < k) : alist_lookup l k = none := by
  induction l with
  | nil => rfl
  | cons p rest ih =>
    obtain ⟨k2, v⟩ := p
    have h2 : k2 ≤ b := hb (k2, v) (List.mem_cons_self _ _)
    simp only [alist_lookup]
    rw [if_neg (by omega : ¬ k2 = k)]
    exact ih (fun q hq => hb q (List.mem_cons_of_mem _ hq))

/-- Erasure only removes entries. -/
theorem mem_alist_erase {α β : Type} [DecidableEq α] {p : α × β} {l : List (α × β)}
    {k : α} (h : p ∈ alist_erase l k) : p ∈ l := by
  induction l with
  | nil => simp [alist_erase] at h
  | cons q rest ih =>
    obtain ⟨k2, v⟩ := q
    simp only [alist_erase] at h
    by_cases hk : k2 = k
    · rw [if_pos hk] at h
      exact List.mem_cons_of_mem _ (ih h)
    · rw [if_neg hk] at h
      rcases List.mem_cons.mp h with h1 | h1
      · exact h1 ▸ List.mem_cons_self _ _
      · exact List.mem_cons_of_mem _ (ih h1)

/-- Keys surviving an erasure were keys before. -/
theorem keys_alist_erase {α β : Type} [DecidableEq α] {a : α} {l : List (α × β)}
    {k : α} (h : a ∈ (alist_erase l k).map Prod.fst) : a ∈ l.map Prod.fst := by
  rcases List.mem_map.mp h with ⟨p, hp, hpa⟩
  exact hpa ▸ List.mem_map_of_mem _ (mem_alist_erase hp)

/-- The erased key is gone from the key list. -/
theorem not_mem_keys_alist_erase {α β : Type} [DecidableEq α] (l : List (α × β))
    (k : α) : k ∉ (alist_erase l k).map Prod.fst := by
  induction l with
  | nil => simp [alist_erase]
  | cons q rest ih =>
    obtain ⟨k2, v⟩ := q
    simp only [alist_erase]
    by_cases hk : k2 = k
    · rw [if_pos hk]; exact ih
    · rw [if_neg hk]
      simp only [List.map_cons, List.mem_cons]
      rintro (h | h)
      · exact hk h.symm
      · exact ih h

/-- Erasure preserves distinctness of the keys. -/
theorem nodup_keys_alist_erase {α β : Type} [DecidableEq α] {l : List (α × β)}
    (k : α) (h : (l.map Prod.fst).Nodup) :
    ((alist_erase l k).map Prod.fst).Nodup := by
  induction l with
  | nil => simp [alist_erase]
  | cons q rest ih =>
    obtain ⟨k2, v⟩ := q
    simp only [List.map_cons, List.nodup_cons] at h
    simp only [alist_erase]
    by_cases hk : k2 = k
    · rw [if_pos hk]; exact ih h.2
    · rw [if_neg hk]
      simp only [List.map_cons, List.nodup_cons]
      exact ⟨fun hmem => h.1 (keys_alist_erase hmem), ih h.2⟩

/-- Lookup of the erased key misses. -/
theorem alist_lookup_erase_self {α β : Type} [DecidableEq α] (l : List (α × β))
    (k : α) : alist_lookup (alist_erase l k) k = none := by
  induction l with
  | nil => rfl
  | cons q rest ih =>
    obtain ⟨k2, v⟩ := q
    simp only [alist_erase]
    by_cases hk : k2 = k
    · rw [if_pos hk]; exact ih
    · rw [if_neg hk]
      simp only [alist_lookup]
      rw [if_neg hk]
      exact ih

/-- Lookup of any other key is unchanged by an erasure. -/
theorem alist_lookup_erase_ne {α β : Type} [DecidableEq α] (l : List (α × β))
    {k k2 : α} (h : k2 ≠ k) :
    alist_lookup (alist_erase l k) k2 = alist_lookup l k2 := by
  induction l with
  | nil => rfl
  | cons q rest ih =>
    obtain ⟨ka, v⟩ := q
    simp only [alist_erase, alist_lookup]
    by_cases hk : ka = k
    · rw [if_pos hk, ih, if_neg (by rw [hk]; exact fun hh => h hh.symm)]
    · rw [if_neg hk]
      simp only [alist_lookup]
      by_cases h2 : ka = k2
      · rw [if_pos h2, if_pos h2]
      · rw [if_neg h2, if_neg h2]
        exact ih

/-- Erasing an absent key changes nothing. -/
theorem alist_erase_of_lookup_none {α β : Type} [DecidableEq α] {l : List (α × β)}
    {k : α} (h : alist_lookup l k = none) : alist_erase l k = l := by
  induction l with
  | nil => rfl
  | cons q rest ih =>
    obtain ⟨k2, v⟩ := q
    simp only [alist_lookup] at h
    by_cases hk : k2 = k
    · rw [if_pos hk] at h
      exact absurd h (by simp)
    · rw [if_neg hk] at h
      simp only [alist_erase]
      rw [if_neg hk, ih h]

/-- Membership in an insertion is the new pair or an old one. -/
theorem mem_alist_insert {α β : Type} [DecidableEq α] {p : α × β}
    {l : List (α × β)} {k : α} {v : β} (h : p ∈ alist_insert l k v) :
    p = (k, v) ∨ p ∈ l := by
  simp only [alist_insert, List.mem_cons] at h
  rcases h with h | h
  · exact Or.inl h
  · exact Or.inr (mem_alist_erase h)

/-- Insertion preserves distinctness of the keys. -/
theorem nodup_keys_alist_insert {α β : Type} [DecidableEq α] {l : List (α × β)}
    (k : α) (v : β) (h : (l.map Prod.fst).Nodup) :
    ((alist_insert l k v).map Prod.fst).Nodup := by
  simp only [alist_insert, List.map_cons, List.nodup_cons]
  exact ⟨not_mem_keys_alist_erase l k, nodup_keys_alist_erase k h⟩

/-- The uri-cache side effect of stat_for_path touches neither handle table
nor either handle counter. -/
theorem stat_update_uris_frame (st : FsState) (q r : String) (l : Listing) :
    (stat_update_uris st q r l).dirHandles = st.dirHandles ∧
    (stat_update_uris st q r l).fileHandles = st.fileHandles ∧
    (stat_update_uris st q r l).lastDirHandle = st.lastDirHandle ∧
    (stat_update_uris st q r l).lastFileHandle = st.lastFileHandle := by
  cases l <;> simp [stat_update_uris]

/-- A successful stat_for_path got some listing from storage and only
applied the uri-cache side effect to the state. -/
theorem stat_for_path_shape {env : Env} {repo : String} {st : FsState}
    {path : String} {req : RequestInfo} {attr : FileAttr} {st1 : FsState}
    (h : stat_for_path env repo st path req = Except.ok (attr, st1)) :
    ∃ l, env.storage (stat_query_path repo path) = Except.ok l ∧
      st1 = stat_update_uris st (stat_query_path repo path) repo l := by
  unfold stat_for_path at h
  cases hs : env.storage (stat_query_path repo path) with
  | error e => rw [hs] at h; simp at h
  | ok listing =>
    rw [hs] at h
    dsimp only at h
    cases hsz : listing_size listing with
    | none => rw [hsz] at h; simp at h
    | some size =>
      rw [hsz] at h
      dsimp only at h
      cases ht1 : listing_time env (fun fi => fi.last_updated) (fun di => di.last_updated) listing with
      | error e => rw [ht1] at h; simp at h
      | ok atime =>
        rw [ht1] at h
        dsimp only at h
        cases ht2 : listing_time env (fun fi => fi.last_modified) (fun di => di.last_modified) listing with
        | error e => rw [ht2] at h; simp at h
        | ok mtime =>
          rw [ht2] at h
          dsimp only at h
          cases ht3 : listing_time env (fun fi => fi.created) (fun di => di.created) listing with
          | error e => rw [ht3] at h; simp at h
          | ok ctime =>
            rw [ht3] at h
            simp only [Except.ok.injEq, Prod.mk.injEq] at h
            exact ⟨listing, rfl, h.2.symm⟩

/-- A successful stat_for_path leaves the handle tables and counters
untouched. -/
theorem stat_for_path_frame {env : Env} {repo : String} {st : FsState}
    {path : String} {req : RequestInfo} {attr : FileAttr} {st1 : FsState}
    (h : stat_for_path env repo st path req = Except.ok (attr, st1)) :
    st1.dirHandles = st.dirHandles ∧ st1.fileHandles = st.fileHandles ∧
    st1.lastDirHandle = st.lastDirHandle ∧ st1.lastFileHandle = st.lastFileHandle := by
  obtain ⟨l, hs, hst⟩ := stat_for_path_shape h
  rw [hst]
  exact stat_update_uris_frame st _ repo l

/-- getattr simply wraps a successful stat_for_path with the TTL. -/
theorem getattr_of_stat {env : Env} {repo : String} {st : FsState} {path : String}
    {req : RequestInfo} {attr : FileAttr} {st1 : FsState}
    (h : stat_for_path env repo st path req = Except.ok (attr, st1)) :
    RtFS.getattr env repo st path req = Except.ok ((TTL, attr), st1) := by
  unfold RtFS.getattr
  rw [h]

/-- A successful getattr came from a successful stat_for_path. -/
theorem getattr_shape {env : Env} {repo : String} {st : FsState} {path : String}
    {req : RequestInfo} {r : Timespec × FileAttr} {st1 : FsState}
    (h : RtFS.getattr env repo st path req = Except.ok (r, st1)) :
    ∃ attr, r = (TTL, attr) ∧
      stat_for_path env repo st path req = Except.ok (attr, st1) := by
  unfold RtFS.getattr at h
  cases hs : stat_for_path env repo st path req with
  | error e => rw [hs] at h; simp at h
  | ok p =>
    obtain ⟨attr, st2⟩ := p
    rw [hs] at h
    simp only [Except.ok.injEq, Prod.mk.injEq] at h
    exact ⟨attr, h.1.symm, by rw [h.2]⟩

/-- opendir on a stat that resolved a Directory kind allocates a directory
handle. -/
theorem opendir_of_stat_dir {env : Env} {repo : String} {st : FsState}
    {path : String} {req : RequestInfo} {attr : FileAttr} {st1 : FsState}
    (h : stat_for_path env repo st path req = Except.ok (attr, st1))
    (hk : attr.kind = FileType.Directory) :
    RtFS.opendir env repo st path req =
      Except.ok (Except.ok ((get_dir_handle st1 { attr := attr, path := path }).1, 0),
        (get_dir_handle st1 { attr := attr, path := path }).2) := by
  unfold RtFS.opendir
  rw [getattr_of_stat h]
  dsimp only
  rw [hk]

/-- opendir on a stat that resolved a RegularFile kind is rejected with
ENOTDIR and hands back the post-stat state. -/
theorem opendir_of_stat_file {env : Env} {repo : String} {st : FsState}
    {path : String} {req : RequestInfo} {attr : FileAttr} {st1 : FsState}
    (h : stat_for_path env repo st path req = Except.ok (attr, st1))
    (hk : attr.kind = FileType.RegularFile) :
    RtFS.opendir env repo st path req = Except.ok (Except.error ENOTDIR, st1) := by
  unfold RtFS.opendir
  rw [getattr_of_stat h]
  dsimp only
  rw [hk]

/-- open on a stat that resolved a RegularFile kind allocates a file
handle. -/
theorem open_of_stat_file {env : Env} {repo : String} {st : FsState}
    {path : String} {req : RequestInfo} {attr : FileAttr} {st1 : FsState}
    (h : stat_for_path env repo st path req = Except.ok (attr, st1))
    (hk : attr.kind = FileType.RegularFile) :
    RtFS.open_ env repo st path req =
      Except.ok (Except.ok ((get_file_handle st1 { attr := attr, path := path }).1, 0),
        (get_file_handle st1 { attr := attr, path := path }).2) := by
  unfold RtFS.open_
  rw [getattr_of_stat h]
  dsimp only
  rw [hk]

/-- open on a stat that resolved a Directory kind is rejected with EISDIR
and hands back the post-stat state. -/
theorem open_of_stat_dir {env : Env} {repo : String} {st : FsState}
    {path : String} {req : RequestInfo} {attr : FileAttr} {st1 : FsState}
    (h : stat_for_path env repo st path req = Except.ok (attr, st1))
    (hk : attr.kind = FileType.Directory) :
    RtFS.open_ env repo st path req = Except.ok (Except.error EISDIR, st1) := by
  unfold RtFS.open_
  rw [getattr_of_stat h]
  dsimp only
  rw [hk]

/-- Inversion of a successful opendir: it came from a Directory-kind stat
and allocated through get_dir_handle. -/
theorem opendir_ok_cases {env : Env} {repo : String} {st : FsState}
    {path : String} {req : RequestInfo} {fh fl : Nat} {st2 : FsState}
    (h : RtFS.opendir env repo st path req = Except.ok (Except.ok (fh, fl), st2)) :
    ∃ attr st1, stat_for_path env repo st path req = Except.ok (attr, st1) ∧
      attr.kind = FileType.Directory ∧
      fh = (get_dir_handle st1 { attr := attr, path := path }).1 ∧
      st2 = (get_dir_handle st1 { attr := attr, path := path }).2 := by
  unfold RtFS.opendir at h
  cases hs : RtFS.getattr env repo st path req with
  | error e => rw [hs] at h; simp at h
  | ok p =>
    obtain ⟨⟨ts, attr⟩, st1⟩ := p
    obtain ⟨attr2, hr, hstat⟩ := getattr_shape hs
    obtain ⟨he1, he2⟩ := Prod.mk.injEq .. ▸ hr
    rw [hs] at h
    dsimp only at h
    cases hk : attr.kind with
    | Directory =>
      rw [hk] at h
      dsimp only at h
      simp only [Except.ok.injEq, Prod.mk.injEq] at h
      refine ⟨attr, st1, ?_, hk, h.1.1.symm, h.2.symm⟩
      rw [he2]
      exact hstat
    | RegularFile =>
      rw [hk] at h
      simp at h

/-- Inversion of an opendir that produced an errno: the state is the
post-stat state. -/
theorem opendir_err_cases {env : Env} {repo : String} {st : FsState}
    {path : String} {req : RequestInfo} {e : Int} {st2 : FsState}
    (h : RtFS.opendir env repo st path req = Except.ok (Except.error e, st2)) :
    ∃ attr, stat_for_path env repo st path req = Except.ok (attr, st2) := by
  unfold RtFS.opendir at h
  cases hs : RtFS.getattr env repo st path req with
  | error e2 => rw [hs] at h; simp at h
  | ok p =>
    obtain ⟨⟨ts, attr⟩, st1⟩ := p
    obtain ⟨attr2, hr, hstat⟩ := getattr_shape hs
    obtain ⟨he1, he2⟩ := Prod.mk.injEq .. ▸ hr
    rw [hs] at h
    dsimp only at h
    cases hk : attr.kind with
    | Directory => rw [hk] at h; simp at h
    | RegularFile =>
      rw [hk] at h
      simp only [Except.ok.injEq, Prod.mk.injEq] at h
      refine ⟨attr, ?_⟩
      rw [he2, ← h.2]
      exact hstat

/-- Inversion of a successful open: it came from a RegularFile-kind stat
and allocated through get_file_handle. -/
theorem open_ok_cases {env : Env} {repo : String} {st : FsState}
    {path : String} {req : RequestInfo} {fh fl : Nat} {st2 : FsState}
    (h : RtFS.open_ env repo st path req = Except.ok (Except.ok (fh, fl), st2)) :
    ∃ attr st1, stat_for_path env repo st path req = Except.ok (attr, st1) ∧
      attr.kind = FileType.RegularFile ∧
      fh = (get_file_handle st1 { attr := attr, path := path }).1 ∧
      st2 = (get_file_handle st1 { attr := attr, path := path }).2 := by
  unfold RtFS.open_ at h
  cases hs : RtFS.getattr env repo st path req with
  | error e => rw [hs] at h; simp at h
  | ok p =>
    obtain ⟨⟨ts, attr⟩, st1⟩ := p
    obtain ⟨attr2, hr, hstat⟩ := getattr_shape hs
    obtain ⟨he1, he2⟩ := Prod.mk.injEq .. ▸ hr
    rw [hs] at h
    dsimp only at h
    cases hk : attr.kind with
    | RegularFile =>
      rw [hk] at h
      dsimp only at h
      simp only [Except.ok.injEq, Prod.mk.injEq] at h
      refine ⟨attr, st1, ?_, hk, h.1.1.symm, h.2.symm⟩
      rw [he2]
      exact hstat
    | Directory =>
      rw [hk] at h
      simp at h

/-- Inversion of an open that produced an errno: the state is the post-stat
state. -/
theorem open_err_cases {env : Env} {repo : String} {st : FsState}
    {path : String} {req : RequestInfo} {e : Int} {st2 : FsState}
    (h : RtFS.open_ env repo st path req = Except.ok (Except.error e, st2)) :
    ∃ attr, stat_for_path env repo st path req = Except.ok (attr, st2) := by
  unfold RtFS.open_ at h
  cases hs : RtFS.getattr env repo st path req with
  | error e2 => rw [hs] at h; simp at h
  | ok p =>
    obtain ⟨⟨ts, attr⟩, st1⟩ := p
    obtain ⟨attr2, hr, hstat⟩ := getattr_shape hs
    obtain ⟨he1, he2⟩ := Prod.mk.injEq .. ▸ hr
    rw [hs] at h
    dsimp only at h
    cases hk : attr.kind with
    | RegularFile => rw [hk] at h; simp at h
    | Directory =>
      rw [hk] at h
      simp only [Except.ok.injEq, Prod.mk.injEq] at h
      refine ⟨attr, ?_⟩
      rw [he2, ← h.2]
      exact hstat

/-- readdir never mutates the adapter state when it returns. -/
theorem readdir_state {env : Env} {repo : String} {st : FsState} {path : String}
    {fh : Nat} {r : Except Int (List DirectoryEntry)} {st1 : FsState}
    (h : RtFS.readdir env repo st path fh = Except.ok (r, st1)) : st1 = st := by
  unfold RtFS.readdir at h
  by_cases h0 : fh = 0
  · rw [if_pos h0] at h
    simp only [Except.ok.injEq, Prod.mk.injEq] at h
    exact h.2.symm
  · rw [if_neg h0] at h
    cases hs : env.storage (repo ++ "/" ++ path) with
    | error e =>
      rw [hs] at h
      simp only [Except.ok.injEq, Prod.mk.injEq] at h
      exact h.2.symm
    | ok l =>
      rw [hs] at h
      cases l with
      | Directory d =>
        simp only [Except.ok.injEq, Prod.mk.injEq] at h
        exact h.2.symm
      | File f => simp at h
      | Error e =>
        simp only [Except.ok.injEq, Prod.mk.injEq] at h
        exact h.2.symm

/-- read never mutates the adapter state when it returns. -/
theorem read_state {env : Env} {st : FsState} {path : String} {fh offset size : Nat}
    {r : List Nat} {st1 : FsState}
    (h : RtFS.read env st path fh offset size = Except.ok (r, st1)) : st1 = st := by
  unfold RtFS.read at h
  cases hu : alist_lookup st.uris path with
  | none => rw [hu] at h; simp at h
  | some uri =>
    rw [hu] at h
    dsimp only at h
    cases hr : Artifactory.read_file env uri offset size ((List.range size).map env.uninit_byte) with
    | error e => rw [hr] at h; simp at h
    | ok data2 =>
      rw [hr] at h
      simp only [Except.ok.injEq, Prod.mk.injEq] at h
      exact h.2.symm

/-- The handle invariant transfers along states that agree on the tables
and counters. -/
theorem handle_inv_transfer {s t : FsState} (h : HandleInv s)
    (hd : t.dirHandles = s.dirHandles) (hf : t.fileHandles = s.fileHandles)
    (hld : t.lastDirHandle = s.lastDirHandle)
    (hlf : t.lastFileHandle = s.lastFileHandle) : HandleInv t := by
  unfold HandleInv at h ⊢
  rw [hd, hf, hld, hlf]
  exact h

/-- Without counter wraparound, get_dir_handle returns a nonzero handle
that is fresh for the directory table and preserves the invariant. -/
theorem get_dir_handle_fresh (st : FsState) (info : FsInfo)
    (hinv : HandleInv st) (hnw : st.lastDirHandle + 1 < U64_MOD) :
    (get_dir_handle st info).1 ≠ 0 ∧
    alist_lookup st.dirHandles (get_dir_handle st info).1 = none ∧
    HandleInv (get_dir_handle st info).2 := by
  obtain ⟨hb, hnd, hbf, hndf⟩ := hinv
  have hmod : (st.lastDirHandle + 1) % U64_MOD = st.lastDirHandle + 1 :=
    Nat.mod_eq_of_lt hnw
  have h1 : (get_dir_handle st info).1 = st.lastDirHandle + 1 := by
    simp [get_dir_handle, hmod]
  have h2 : (get_dir_handle st info).2 =
      { st with
          lastDirHandle := st.lastDirHandle + 1
          dirHandles := alist_insert st.dirHandles (st.lastDirHandle + 1) info } := by
    simp [get_dir_handle, hmod]
  rw [h1, h2]
  refine ⟨by omega, ?_, ?_, ?_, ?_, ?_⟩
  · exact alist_lookup_eq_none_of_lt (fun p hp => (hb p hp).2) (Nat.lt_succ_self _)
  · intro p hp
    simp only at hp
    rcases mem_alist_insert hp with hpe | hpm
    · rw [hpe]
      exact ⟨by omega, le_refl _⟩
    · have := hb p hpm
      exact ⟨this.1, by simp only; omega⟩
  · simp only
    exact nodup_keys_alist_insert _ _ hnd
  · intro p hp
    simp only at hp
    exact hbf p hp
  · simp only
    exact hndf

/-- Without counter wraparound, get_file_handle returns a nonzero handle
that is fresh for the file table and preserves the invariant. -/
theorem get_file_handle_fresh (st : FsState) (info : FsInfo)
    (hinv : HandleInv st) (hnw : st.lastFileHandle + 1 < U64_MOD) :
    (get_file_handle st info).1 ≠ 0 ∧
    alist_lookup st.fileHandles (get_file_handle st info).1 = none ∧
    HandleInv (get_file_handle st info).2 := by
  obtain ⟨hb, hnd, hbf, hndf⟩ := hinv
  have hmod : (st.lastFileHandle + 1) % U64_MOD = st.lastFileHandle + 1 :=
    Nat.mod_eq_of_lt hnw
  have h1 : (get_file_handle st info).1 = st.lastFileHandle + 1 := by
    simp [get_file_handle, hmod]
  have h2 : (get_file_handle st info).2 =
      { st with
          lastFileHandle := st.lastFileHandle + 1
          fileHandles := alist_insert st.fileHandles (st.lastFileHandle + 1) info } := by
    simp [get_file_handle, hmod]
  rw [h1, h2]
  refine ⟨by omega, ?_, ?_, ?_, ?_, ?_⟩
  · exact alist_lookup_eq_none_of_lt (fun p hp => (hbf p hp).2) (Nat.lt_succ_self _)
  · intro p hp
    simp only at hp
    exact hb p hp
  · simp only
    exact hnd
  · intro p hp
    simp only at hp
    rcases mem_alist_insert hp with hpe | hpm
    · rw [hpe]
      exact ⟨by omega, le_refl _⟩
    · have := hbf p hpm
      exact ⟨this.1, by simp only; omega⟩
  · simp only
    exact nodup_keys_alist_insert _ _ hndf

/-- A stat failure propagates through getattr as the boo panic. -/
theorem getattr_err_of_stat_err {env : Env} {repo : String} {st : FsState}
    {path : String} {req : RequestInfo} {e : String}
    (h : stat_for_path env repo st path req = Except.error e) :
    RtFS.getattr env repo st path req = Except.error ("panic: boo: " ++ e) := by
  unfold RtFS.getattr
  rw [h]

/-- A File listing with an unparseable size or timestamp makes
stat_for_path fail. -/
theorem stat_file_parse_err (env : Env) (repo : String) (st : FsState)
    (path : String) (req : RequestInfo) {f : FileInfo}
    (hs : env.storage (stat_query_path repo path) = Except.ok (Listing.File f))
    (hfail : parse_u64 f.size = none ∨ env.strptime f.last_updated = none ∨
      env.strptime f.last_modified = none ∨ env.strptime f.created = none) :
    ∃ e, stat_for_path env repo st path req = Except.error e := by
  cases hsz : parse_u64 f.size with
  | none =>
    refine ⟨"panic: size unwrap", ?_⟩
    unfold stat_for_path
    rw [hs]
    dsimp only
    simp [listing_size, hsz]
  | some n =>
    rcases hfail with hp | hp | hp | hp
    · rw [hp] at hsz
      cases hsz
    · refine ⟨"panic: timestamp parse", ?_⟩
      unfold stat_for_path
      rw [hs]
      dsimp only
      simp [listing_size, hsz, listing_time, timestamp_to_timespec, hp]
    · cases h1 : env.strptime f.last_updated with
      | none =>
        refine ⟨"panic: timestamp parse", ?_⟩
        unfold stat_for_path
        rw [hs]
        dsimp only
        simp [listing_size, hsz, listing_time, timestamp_to_timespec, h1]
      | some tu =>
        refine ⟨"panic: timestamp parse", ?_⟩
        unfold stat_for_path
        rw [hs]
        dsimp only
        simp [listing_size, hsz, listing_time, timestamp_to_timespec, h1, hp]
    · cases h1 : env.strptime f.last_updated with
      | none =>
        refine ⟨"panic: timestamp parse", ?_⟩
        unfold stat_for_path
        rw [hs]
        dsimp only
        simp [listing_size, hsz, listing_time, timestamp_to_timespec, h1]
      | some tu =>
        cases h2 : env.strptime f.last_modified with
        | none =>
          refine ⟨"panic: timestamp parse", ?_⟩
          unfold stat_for_path
          rw [hs]
          dsimp only
          simp [listing_size, hsz, listing_time, timestamp_to_timespec, h1, h2]
        | some tm =>
          refine ⟨"panic: timestamp parse", ?_⟩
          unfold stat_for_path
          rw [hs]
          dsimp only
          simp [listing_size, hsz, listing_time, timestamp_to_timespec, h1, h2, hp]

/-- A Directory listing with an unparseable timestamp makes stat_for_path
fail. -/
theorem stat_dir_parse_err (env : Env) (repo : String) (st : FsState)
    (path : String) (req : RequestInfo) {d : DirInfo}
    (hs : env.storage (stat_query_path repo path) = Except.ok (Listing.Directory d))
    (hfail : env.strptime d.last_updated = none ∨
      env.strptime d.last_modified = none ∨ env.strptime d.created = none) :
    ∃ e, stat_for_path env repo st path req = Except.error e := by
  rcases hfail with hp | hp | hp
  · refine ⟨"panic: timestamp parse", ?_⟩
    unfold stat_for_path
    rw [hs]
    dsimp only
    simp [listing_size, listing_time, timestamp_to_timespec, hp]
  · cases h1 : env.strptime d.last_updated with
    | none =>
      refine ⟨"panic: timestamp parse", ?_⟩
      unfold stat_for_path
      rw [hs]
      dsimp only
      simp [listing_size, listing_time, timestamp_to_timespec, h1]
    | some tu =>
      refine ⟨"panic: timestamp parse", ?_⟩
      unfold stat_for_path
      rw [hs]
      dsimp only
      simp [listing_size, listing_time, timestamp_to_timespec, h1, hp]
  · cases h1 : env.strptime d.last_updated with
    | none =>
      refine ⟨"panic: timestamp parse", ?_⟩
      unfold stat_for_path
      rw [hs]
      dsimp only
      simp [listing_size, listing_time, timestamp_to_timespec, h1]
    | some tu =>
      cases h2 : env.strptime d.last_modified with
      | none =>
        refine ⟨"panic: timestamp parse", ?_⟩
        unfold stat_for_path
        rw [hs]
        dsimp only
        simp [listing_size, listing_time, timestamp_to_timespec, h1, h2]
      | some tm =>
        refine ⟨"panic: timestamp parse", ?_⟩
        unfold stat_for_path
        rw [hs]
        dsimp only
        simp [listing_size, listing_time, timestamp_to_timespec, h1, h2, hp]

/-- For a child uri that begins with the separator, prepending the
separator to the sliced name gives back the uri. -/
theorem sep_append_get_name {s : String} (h : str_starts_with s "/" = true) :
    "/" ++ str_drop s 1 = s := by
  obtain ⟨data⟩ := s
  unfold str_starts_with at h
  have hd : ("/" : String).data = ['/'] := rfl
  rw [hd] at h
  cases data with
  | nil => simp [List.isPrefixOf] at h
  | cons c t =>
    simp [List.isPrefixOf] at h
    rw [← h]
    rfl

/-- C1: the claim that read returns exactly the bytes the client receives
for the requested range fails on the code.  The response body is appended
(through the Write instance used by copy_to) to a buffer that was already
set to the requested length with uninitialized contents, so the caller
receives length uninitialized bytes followed by the fetched bytes.  Here
the locator L is cached for the path /f, the client receives [1, 2, 3]
for a read of length 4 at offset 0, and read hands back seven bytes. -/
theorem read_returns_junk_prefixed_buffer :
    RtFS.read envF stC1 "/f" 9 0 4 = Except.ok ([0, 0, 0, 0, 1, 2, 3], stC1) ∧
    envF.read_range "L" 0 4 = Except.ok [1, 2, 3] ∧
    ([0, 0, 0, 0, 1, 2, 3] : List Nat) ≠ [1, 2, 3] :=
  ⟨rfl, rfl, by decide⟩

/-- C2: for a Directory listing with parseable timestamps getattr yields
kind Directory and the 4096 sentinel size; for a File listing with a
parseable size and parseable timestamps it yields kind RegularFile and the
parsed size. -/
theorem getattr_projects_listing (env : Env) (repo : String) (st : FsState)
    (path : String) (req : RequestInfo) :
    (∀ d tu tm tc,
      env.storage (stat_query_path repo path) = Except.ok (Listing.Directory d) →
      env.strptime d.last_updated = some tu →
      env.strptime d.last_modified = some tm →
      env.strptime d.created = some tc →
      ∃ ts attr st1, RtFS.getattr env repo st path req = Except.ok ((ts, attr), st1) ∧
        attr.kind = FileType.Directory ∧ attr.size = 4096) ∧
    (∀ f n tu tm tc,
      env.storage (stat_query_path repo path) = Except.ok (Listing.File f) →
      parse_u64 f.size = some n →
      env.strptime f.last_updated = some tu →
      env.strptime f.last_modified = some tm →
      env.strptime f.created = some tc →
      ∃ ts attr st1, RtFS.getattr env repo st path req = Except.ok ((ts, attr), st1) ∧
        attr.kind = FileType.RegularFile ∧ attr.size = n) := by
  constructor
  · intro d tu tm tc hs h1 h2 h3
    have hstat : stat_for_path env repo st path req =
        Except.ok
          ({ size := 4096, blocks := 0, atime := tu, mtime := tm, ctime := tc,
             crtime := Timespec.mk 0 0, kind := FileType.Directory, perm := 0o666,
             nlink := 1, uid := req.uid, gid := req.gid, rdev := 0, flags := 0 },
           st) := by
      unfold stat_for_path
      rw [hs]
      dsimp only
      simp [listing_size, listing_time, listing_kind, timestamp_to_timespec,
        stat_update_uris, h1, h2, h3]
    exact ⟨TTL, _, st, getattr_of_stat hstat, rfl, rfl⟩
  · intro f n tu tm tc hs hp h1 h2 h3
    have hstat : stat_for_path env repo st path req =
        Except.ok
          ({ size := n, blocks := 0, atime := tu, mtime := tm, ctime := tc,
             crtime := Timespec.mk 0 0, kind := FileType.RegularFile, perm := 0o666,
             nlink := 1, uid := req.uid, gid := req.gid, rdev := 0, flags := 0 },
           stat_update_uris st (stat_query_path repo path) repo (Listing.File f)) := by
      unfold stat_for_path
      rw [hs]
      dsimp only
      simp [listing_size, listing_time, listing_kind, timestamp_to_timespec,
        hp, h1, h2, h3]
    exact ⟨TTL, _, _, getattr_of_stat hstat, rfl, rfl⟩

/-- C2 witness: under envD the root resolves to a directory of size 4096,
and under envF the path /f.jar resolves to a regular file of size 1024. -/
theorem getattr_projects_listing_witness :
    (∃ ts attr st1, RtFS.getattr envD "r" st_empty "/" req0 =
        Except.ok ((ts, attr), st1) ∧
      attr.kind = FileType.Directory ∧ attr.size = 4096) ∧
    (∃ ts attr st1, RtFS.getattr envF "r" st_empty "/f.jar" req0 =
        Except.ok ((ts, attr), st1) ∧
      attr.kind = FileType.RegularFile ∧ attr.size = 1024) :=
  ⟨(getattr_projects_listing envD "r" st_empty "/" req0).1 d_root ts0 ts0 ts0
      rfl rfl rfl rfl,
   (getattr_projects_listing envF "r" st_empty "/f.jar" req0).2 f_jar 1024 ts0 ts0 ts0
      rfl rfl rfl rfl rfl⟩

/-- C3 counterexample: for a path on which the client returns an Error
listing, getattr does not fail; it succeeds with a fabricated directory
attribute record (kind Directory, size 4096, all timestamps 1 second). -/
theorem error_listing_getattr_succeeds :
    RtFS.getattr envE "r" st_empty "/missing" req0 =
      Except.ok ((TTL, attrE), st_empty) ∧
    attrE.kind = FileType.Directory ∧ attrE.size = 4096 :=
  ⟨rfl, rfl, rfl⟩

/-- C3 amended: a Directory or File listing whose timestamp fails to parse,
or a File listing whose size fails to parse, makes getattr fail; an Error
listing however succeeds with kind Directory and size 4096. -/
theorem getattr_failure_modes (env : Env) (repo : String) (st : FsState)
    (path : String) (req : RequestInfo) :
    (∀ es, env.storage (stat_query_path repo path) = Except.ok (Listing.Error es) →
      ∃ attr st1, RtFS.getattr env repo st path req = Except.ok ((TTL, attr), st1) ∧
        attr.kind = FileType.Directory ∧ attr.size = 4096) ∧
    (∀ f, env.storage (stat_query_path repo path) = Except.ok (Listing.File f) →
      (parse_u64 f.size = none ∨ env.strptime f.last_updated = none ∨
        env.strptime f.last_modified = none ∨ env.strptime f.created = none) →
      ∃ e, RtFS.getattr env repo st path req = Except.error e) ∧
    (∀ d, env.storage (stat_query_path repo path) = Except.ok (Listing.Directory d) →
      (env.strptime d.last_updated = none ∨ env.strptime d.last_modified = none ∨
        env.strptime d.created = none) →
      ∃ e, RtFS.getattr env repo st path req = Except.error e) := by
  refine ⟨?_, ?_, ?_⟩
  · intro es hs
    have hstat : stat_for_path env repo st path req =
        Except.ok
          ({ size := 4096, blocks := 0, atime := Timespec.mk 1 1,
             mtime := Timespec.mk 1 1, ctime := Timespec.mk 1 1,
             crtime := Timespec.mk 0 0, kind := FileType.Directory, perm := 0o666,
             nlink := 1, uid := req.uid, gid := req.gid, rdev := 0, flags := 0 },
           st) := by
      unfold stat_for_path
      rw [hs]
      dsimp only
      simp [listing_size, listing_time, listing_kind, stat_update_uris]
    exact ⟨_, st, getattr_of_stat hstat, rfl, rfl⟩
  · intro f hs hfail
    obtain ⟨e, he⟩ := stat_file_parse_err env repo st path req hs hfail
    exact ⟨_, getattr_err_of_stat_err he⟩
  · intro d hs hfail
    obtain ⟨e, he⟩ := stat_dir_parse_err env repo st path req hs hfail
    exact ⟨_, getattr_err_of_stat_err he⟩

/-- C3 witness: under envBad the size field 12cd of the file listing does
not parse, and getattr fails. -/
theorem getattr_failure_modes_witness :
    ∃ e, RtFS.getattr envBad "r" st_empty "/f" req0 = Except.error e :=
  (getattr_failure_modes envBad "r" st_empty "/f" req0).2.1 f_bad rfl (Or.inl rfl)

/-- C4: opendir on a path whose resolved kind is RegularFile fails with
ENOTDIR and open on a path whose resolved kind is Directory fails with
EISDIR; in both cases the handle tables and both counters are exactly
those before the call. -/
theorem type_mismatch_no_alloc (env : Env) (repo : String) (st : FsState)
    (path : String) (req : RequestInfo) :
    (∀ attr st1, stat_for_path env repo st path req = Except.ok (attr, st1) →
      attr.kind = FileType.RegularFile →
      RtFS.opendir env repo st path req = Except.ok (Except.error ENOTDIR, st1) ∧
      st1.dirHandles = st.dirHandles ∧ st1.fileHandles = st.fileHandles ∧
      st1.lastDirHandle = st.lastDirHandle ∧
      st1.lastFileHandle = st.lastFileHandle) ∧
    (∀ attr st1, stat_for_path env repo st path req = Except.ok (attr, st1) →
      attr.kind = FileType.Directory →
      RtFS.open_ env repo st path req = Except.ok (Except.error EISDIR, st1) ∧
      st1.dirHandles = st.dirHandles ∧ st1.fileHandles = st.fileHandles ∧
      st1.lastDirHandle = st.lastDirHandle ∧
      st1.lastFileHandle = st.lastFileHandle) := by
  constructor
  · intro attr st1 hstat hkind
    obtain ⟨hd, hf, hld, hlf⟩ := stat_for_path_frame hstat
    exact ⟨opendir_of_stat_file hstat hkind, hd, hf, hld, hlf⟩
  · intro attr st1 hstat hkind
    obtain ⟨hd, hf, hld, hlf⟩ := stat_for_path_frame hstat
    exact ⟨open_of_stat_dir hstat hkind, hd, hf, hld, hlf⟩

/-- C4 witness: under envF the path /f.jar resolves to a file and opendir
rejects it, under envD the root resolves to a directory and open rejects
it; tables and counters are untouched both times. -/
theorem type_mismatch_no_alloc_witness :
    (RtFS.opendir envF "r" st_empty "/f.jar" req0 =
        Except.ok (Except.error ENOTDIR, stF4) ∧
      stF4.dirHandles = st_empty.dirHandles ∧
      stF4.fileHandles = st_empty.fileHandles ∧
      stF4.lastDirHandle = st_empty.lastDirHandle ∧
      stF4.lastFileHandle = st_empty.lastFileHandle) ∧
    (RtFS.open_ envD "r" st_empty "/" req0 =
        Except.ok (Except.error EISDIR, st_empty) ∧
      st_empty.dirHandles = st_empty.dirHandles ∧
      st_empty.fileHandles = st_empty.fileHandles ∧
      st_empty.lastDirHandle = st_empty.lastDirHandle ∧
      st_empty.lastFileHandle = st_empty.lastFileHandle) :=
  ⟨(type_mismatch_no_alloc envF "r" st_empty "/f.jar" req0).1 attrF stF4 rfl rfl,
   (type_mismatch_no_alloc envD "r" st_empty "/" req0).2 attrD st_empty rfl rfl⟩

/-- C6: the claim that the locator cache maps the path to the download
locator of the file fails on the code.  stat_for_path caches the uri field
of the listing (the storage-API metadata address), not its downloadUri
field, and read then issues its ranged fetch against that cached uri: under
envF the fetch for /a.jar goes to the storage uri (which answers [7, 8])
rather than to the downloadUri. -/
theorem locator_cache_stores_storage_uri :
    stat_for_path envF "r" st_empty "/a.jar" req0 = Except.ok (attrF, stF6) ∧
    alist_lookup stF6.uris "/a.jar" = some f_jar.uri ∧
    f_jar.uri ≠ f_jar.download_uri ∧
    RtFS.read envF stF6 "/a.jar" 3 0 0 = Except.ok ([7, 8], stF6) :=
  ⟨rfl, rfl, by decide, rfl⟩

/-- C7 counterexample: readdir does not consult the directory handle
table; with an empty table and the unknown nonzero handle 1, it still
yields the listing of the queried path. -/
theorem readdir_accepts_unknown_nonzero_handle :
    st_empty.dirHandles = [] ∧
    RtFS.readdir envD "r" st_empty "/" 1 =
      Except.ok (Except.ok [dir_entry_of org_child], st_empty) :=
  ⟨rfl, rfl⟩

/-- C7 amended: readdir with the sentinel zero handle returns EINVAL; any
nonzero handle is accepted without being checked against the directory
handle table, and on a Directory listing the children are returned. -/
theorem readdir_zero_handle_einval (env : Env) (repo : String) (st : FsState)
    (path : String) :
    RtFS.readdir env repo st path 0 = Except.ok (Except.error EINVAL, st) ∧
    (∀ fh, fh ≠ 0 →
      ∀ d, env.storage (repo ++ "/" ++ path) = Except.ok (Listing.Directory d) →
      RtFS.readdir env repo st path fh =
        Except.ok (Except.ok (d.children.map dir_entry_of), st)) := by
  constructor
  · unfold RtFS.readdir
    rw [if_pos rfl]
  · intro fh hfh d hs
    unfold RtFS.readdir
    rw [if_neg hfh, hs]

/-- C7 witness: the zero handle is rejected with EINVAL, and the unknown
nonzero handle 2 on an empty table still returns the listing. -/
theorem readdir_zero_handle_einval_witness :
    RtFS.readdir envD "r" st_empty "/" 0 = Except.ok (Except.error EINVAL, st_empty) ∧
    RtFS.readdir envD "r" st_empty "/" 2 =
      Except.ok (Except.ok (d_root.children.map dir_entry_of), st_empty) :=
  ⟨(readdir_zero_handle_einval envD "r" st_empty "/").1,
   (readdir_zero_handle_einval envD "r" st_empty "/").2 2 (by decide) d_root rfl⟩

/-- C8: the claim that readdir surfaces an error to the caller on a File
listing fails on the code: the File arm of the match is a panic, which
aborts the whole process instead of returning an errno.  Under envF the
storage query of the readdir of /x with the nonzero handle 5 returns a
File listing and readdir lands in the panic channel. -/
theorem readdir_file_listing_aborts :
    RtFS.readdir envF "r" st_empty "/x" 5 =
      Except.error "panic: readdir called for non-directory entry" :=
  rfl

/-- C9: with a nonzero handle and a Directory listing for the queried
path, readdir returns exactly one entry per child in listing order; each
name is the reference uri of the child with its leading separator
stripped, and each kind follows the folder flag of the child. -/
theorem readdir_lists_children (env : Env) (repo : String) (st : FsState)
    (path : String) (fh : Nat) (d : DirInfo) (hfh : fh ≠ 0)
    (hs : env.storage (repo ++ "/" ++ path) = Except.ok (Listing.Directory d))
    (hsep : ∀ c ∈ d.children, str_starts_with c.uri "/" = true) :
    ∃ entries, RtFS.readdir env repo st path fh =
        Except.ok (Except.ok entries, st) ∧
      entries.length = d.children.length ∧
      ∀ i (hi : i < d.children.length) (hie : i < entries.length),
        "/" ++ (entries.get ⟨i, hie⟩).name = (d.children.get ⟨i, hi⟩).uri ∧
        (entries.get ⟨i, hie⟩).kind =
          (if (d.children.get ⟨i, hi⟩).folder then FileType.Directory
           else FileType.RegularFile) := by
  refine ⟨d.children.map dir_entry_of, ?_, List.length_map _ _, ?_⟩
  · unfold RtFS.readdir
    rw [if_neg hfh, hs]
  · intro i hi hie
    have hget : (d.children.map dir_entry_of).get ⟨i, hie⟩ =
        dir_entry_of (d.children.get ⟨i, hi⟩) := by
      simp [List.get_eq_getElem, List.getElem_map]
    rw [hget]
    exact ⟨sep_append_get_name (hsep _ (List.get_mem _ _ _)), rfl⟩

/-- C9 witness: the single folder child /org of the sample root listing
comes back as one Directory entry named org. -/
theorem readdir_lists_children_witness :
    ∃ entries, RtFS.readdir envD "r" st_empty "/" 3 =
        Except.ok (Except.ok entries, st_empty) ∧
      entries.length = d_root.children.length ∧
      ∀ i (hi : i < d_root.children.length) (hie : i < entries.length),
        "/" ++ (entries.get ⟨i, hie⟩).name = (d_root.children.get ⟨i, hi⟩).uri ∧
        (entries.get ⟨i, hie⟩).kind =
          (if (d_root.children.get ⟨i, hi⟩).folder then FileType.Directory
           else FileType.RegularFile) :=
  readdir_lists_children envD "r" st_empty "/" 3 d_root (by decide) rfl (by decide)

/-- C10: releasedir removes at most the given handle from the directory
table and release removes at most the given handle from the file table;
both always succeed, leave the other table, the locator cache and both
counters unchanged, and do nothing at all when the handle is absent. -/
theorem release_frame (st : FsState) (path : String) (fh : Nat) :
    (∀ r st1, RtFS.releasedir st path fh = (r, st1) →
      r = Except.ok () ∧ st1.fileHandles = st.fileHandles ∧ st1.uris = st.uris ∧
      st1.lastDirHandle = st.lastDirHandle ∧
      st1.lastFileHandle = st.lastFileHandle ∧
      alist_lookup st1.dirHandles fh = none ∧
      (∀ k, k ≠ fh → alist_lookup st1.dirHandles k = alist_lookup st.dirHandles k) ∧
      (alist_lookup st.dirHandles fh = none → st1 = st)) ∧
    (∀ r st1, RtFS.release st path fh = (r, st1) →
      r = Except.ok () ∧ st1.dirHandles = st.dirHandles ∧ st1.uris = st.uris ∧
      st1.lastDirHandle = st.lastDirHandle ∧
      st1.lastFileHandle = st.lastFileHandle ∧
      alist_lookup st1.fileHandles fh = none ∧
      (∀ k, k ≠ fh → alist_lookup st1.fileHandles k = alist_lookup st.fileHandles k) ∧
      (alist_lookup st.fileHandles fh = none → st1 = st)) := by
  constructor
  · intro r st1 h
    unfold RtFS.releasedir at h
    dsimp only at h
    by_cases hc : alist_contains st.dirHandles fh = true
    · rw [if_pos hc] at h
      cases h
      refine ⟨rfl, rfl, rfl, rfl, rfl, alist_lookup_erase_self _ _, ?_, ?_⟩
      · intro k hk
        exact alist_lookup_erase_ne _ hk
      · intro hnone
        rw [alist_contains, hnone] at hc
        simp at hc
    · rw [if_neg hc] at h
      cases h
      have hnone : alist_lookup st.dirHandles fh = none := by
        cases hl : alist_lookup st.dirHandles fh with
        | none => rfl
        | some v =>
          rw [alist_contains, hl] at hc
          simp at hc
      exact ⟨rfl, rfl, rfl, rfl, rfl, hnone, fun k hk => rfl, fun _ => rfl⟩
  · intro r st1 h
    unfold RtFS.release at h
    dsimp only at h
    by_cases hc : alist_contains st.fileHandles fh = true
    · rw [if_pos hc] at h
      cases h
      refine ⟨rfl, rfl, rfl, rfl, rfl, alist_lookup_erase_self _ _, ?_, ?_⟩
      · intro k hk
        exact alist_lookup_erase_ne _ hk
      · intro hnone
        rw [alist_contains, hnone] at hc
        simp at hc
    · rw [if_neg hc] at h
      cases h
      have hnone : alist_lookup st.fileHandles fh = none := by
        cases hl : alist_lookup st.fileHandles fh with
        | none => rfl
        | some v =>
          rw [alist_contains, hl] at hc
          simp at hc
      exact ⟨rfl, rfl, rfl, rfl, rfl, hnone, fun k hk => rfl, fun _ => rfl⟩

/-- C10 witness: releasing the present directory handle 5 of stR removes
exactly that entry and touches nothing else; releasing the absent file
handle 9 succeeds and changes nothing. -/
theorem release_frame_witness :
    RtFS.releasedir stR "/" 5 = (Except.ok (), stRd) ∧
    alist_lookup stRd.dirHandles 5 = none ∧
    alist_lookup stRd.dirHandles 6 = alist_lookup stR.dirHandles 6 ∧
    stRd.fileHandles = stR.fileHandles ∧
    stRd.uris = stR.uris ∧
    RtFS.release stR "/" 9 = (Except.ok (), stR) := by
  have h1 := (release_frame stR "/" 5).1 (Except.ok ()) stRd rfl
  have h2 := (release_frame stR "/" 9).2 (Except.ok ()) stR rfl
  exact ⟨rfl, h1.2.2.2.2.2.1, h1.2.2.2.2.2.2.1 6 (by decide), h1.2.1, h1.2.2.1, rfl⟩

/-- C5 amended: as long as the allocating counter has not wrapped around
(its value plus one stays below 2 ^ 64), every handle returned by a
successful opendir or open is nonzero and distinct from every handle
currently open in its table, and every operation of the adapter preserves
the handle invariant; a fresh adapter state satisfies the invariant. -/
theorem handle_registry_invariant (env : Env) (repo path : String)
    (req : RequestInfo) (st : FsState) (hinv : HandleInv st) :
    (st.lastDirHandle + 1 < U64_MOD →
      ∀ fh fl st1,
        RtFS.opendir env repo st path req = Except.ok (Except.ok (fh, fl), st1) →
        fh ≠ 0 ∧ alist_lookup st.dirHandles fh = none ∧ HandleInv st1) ∧
    (st.lastFileHandle + 1 < U64_MOD →
      ∀ fh fl st1,
        RtFS.open_ env repo st path req = Except.ok (Except.ok (fh, fl), st1) →
        fh ≠ 0 ∧ alist_lookup st.fileHandles fh = none ∧ HandleInv st1) ∧
    (∀ e st1, RtFS.opendir env repo st path req = Except.ok (Except.error e, st1) →
      HandleInv st1) ∧
    (∀ e st1, RtFS.open_ env repo st path req = Except.ok (Except.error e, st1) →
      HandleInv st1) ∧
    (∀ r st1, RtFS.getattr env repo st path req = Except.ok (r, st1) →
      HandleInv st1) ∧
    (∀ fh r st1, RtFS.readdir env repo st path fh = Except.ok (r, st1) →
      HandleInv st1) ∧
    (∀ fh offset size r st1,
      RtFS.read env st path fh offset size = Except.ok (r, st1) → HandleInv st1) ∧
    (∀ fh r st1, RtFS.releasedir st path fh = (r, st1) → HandleInv st1) ∧
    (∀ fh r st1, RtFS.release st path fh = (r, st1) → HandleInv st1) ∧
    HandleInv (RtFS.new env) := by
  refine ⟨?_, ?_, ?_, ?_, ?_, ?_, ?_, ?_, ?_, ?_⟩
  · intro hnw fh fl st1 h
    obtain ⟨attr, st2, hstat, hkind, hfh, hst1⟩ := opendir_ok_cases h
    obtain ⟨hd, hf, hld, hlf⟩ := stat_for_path_frame hstat
    have hinv2 : HandleInv st2 := handle_inv_transfer hinv hd hf hld hlf
    have hnw2 : st2.lastDirHandle + 1 < U64_MOD := by rw [hld]; exact hnw
    obtain ⟨hz, hfresh, hinv3⟩ :=
      get_dir_handle_fresh st2 { attr := attr, path := path } hinv2 hnw2
    refine ⟨hfh ▸ hz, ?_, hst1 ▸ hinv3⟩
    rw [hfh, ← hd]
    exact hfresh
  · intro hnw fh fl st1 h
    obtain ⟨attr, st2, hstat, hkind, hfh, hst1⟩ := open_ok_cases h
    obtain ⟨hd, hf, hld, hlf⟩ := stat_for_path_frame hstat
    have hinv2 : HandleInv st2 := handle_inv_transfer hinv hd hf hld hlf
    have hnw2 : st2.lastFileHandle + 1 < U64_MOD := by rw [hlf]; exact hnw
    obtain ⟨hz, hfresh, hinv3⟩ :=
      get_file_handle_fresh st2 { attr := attr, path := path } hinv2 hnw2
    refine ⟨hfh ▸ hz, ?_, hst1 ▸ hinv3⟩
    rw [hfh, ← hf]
    exact hfresh
  · intro e st1 h
    obtain ⟨attr, hstat⟩ := opendir_err_cases h
    obtain ⟨hd, hf, hld, hlf⟩ := stat_for_path_frame hstat
    exact handle_inv_transfer hinv hd hf hld hlf
  · intro e st1 h
    obtain ⟨attr, hstat⟩ := open_err_cases h
    obtain ⟨hd, hf, hld, hlf⟩ := stat_for_path_frame hstat
    exact handle_inv_transfer hinv hd hf hld hlf
  · intro r st1 h
    obtain ⟨attr, hr, hstat⟩ := getattr_shape h
    obtain ⟨hd, hf, hld, hlf⟩ := stat_for_path_frame hstat
    exact handle_inv_transfer hinv hd hf hld hlf
  · intro fh r st1 h
    rw [readdir_state h]
    exact hinv
  · intro fh offset size r st1 h
    rw [read_state h]
    exact hinv
  · intro fh r st1 h
    unfold RtFS.releasedir at h
    dsimp only at h
    obtain ⟨hb, hnd, hbf, hndf⟩ := hinv
    by_cases hc : alist_contains st.dirHandles fh = true
    · rw [if_pos hc] at h
      cases h
      refine ⟨?_, ?_, ?_, ?_⟩
      · intro p hp
        exact hb p (mem_alist_erase hp)
      · exact nodup_keys_alist_erase _ hnd
      · intro p hp
        exact hbf p hp
      · exact hndf
    · rw [if_neg hc] at h
      cases h
      exact ⟨hb, hnd, hbf, hndf⟩
  · intro fh r st1 h
    unfold RtFS.release at h
    dsimp only at h
    obtain ⟨hb, hnd, hbf, hndf⟩ := hinv
    by_cases hc : alist_contains st.fileHandles fh = true
    · rw [if_pos hc] at h
      cases h
      refine ⟨?_, ?_, ?_, ?_⟩
      · intro p hp
        exact hb p hp
      · exact hnd
      · intro p hp
        exact hbf p (mem_alist_erase hp)
      · exact nodup_keys_alist_erase _ hndf
    · rw [if_neg hc] at h
      cases h
      exact ⟨hb, hnd, hbf, hndf⟩
  · exact ⟨fun p hp => absurd hp (List.not_mem_nil p), List.nodup_nil,
      fun p hp => absurd hp (List.not_mem_nil p), List.nodup_nil⟩

/-- C5 witness: on a fresh adapter state under envD the first opendir of
the root returns the nonzero handle 0xaaab, fresh for the empty table, and
the invariant still holds afterwards. -/
theorem handle_registry_invariant_witness :
    (0xaaab : Nat) ≠ 0 ∧
    alist_lookup (RtFS.new envD).dirHandles 0xaaab = none ∧
    HandleInv st_after0 :=
  (handle_registry_invariant envD "r" "/" req0 (RtFS.new envD)
      ⟨fun p hp => absurd hp (List.not_mem_nil p), List.nodup_nil,
       fun p hp => absurd hp (List.not_mem_nil p), List.nodup_nil⟩).1
    (by decide) 0xaaab 0 st_after0 rfl

/-- opendir under envD always succeeds and performs exactly one counter
increment and one registration, for any starting state. -/
theorem opendir_envD_step (st : FsState) :
    RtFS.opendir envD "r" st "/" req0 =
      Except.ok (Except.ok ((st.lastDirHandle + 1) % U64_MOD, 0),
        { st with
            lastDirHandle := (st.lastDirHandle + 1) % U64_MOD
            dirHandles := alist_insert st.dirHandles
              ((st.lastDirHandle + 1) % U64_MOD) fsiRoot }) := rfl

/-- Iterating opendir under envD advances the directory counter by the
iteration count modulo 2 ^ 64. -/
theorem iter_opendir_envD (n : Nat) : ∀ st : FsState,
    st.lastDirHandle < U64_MOD →
    ∃ st1, iter_opendir envD "r" "/" req0 n st = Except.ok st1 ∧
      st1.lastDirHandle = (st.lastDirHandle + n) % U64_MOD := by
  induction n with
  | zero =>
    intro st h
    exact ⟨st, rfl, by rw [Nat.add_zero, Nat.mod_eq_of_lt h]⟩
  | succ n ih =>
    intro st h
    have hlt : (st.lastDirHandle + 1) % U64_MOD < U64_MOD :=
      Nat.mod_lt _ (by decide)
    obtain ⟨st1, hiter, hlast⟩ := ih
      { st with
          lastDirHandle := (st.lastDirHandle + 1) % U64_MOD
          dirHandles := alist_insert st.dirHandles
            ((st.lastDirHandle + 1) % U64_MOD) fsiRoot } hlt
    refine ⟨st1, ?_, ?_⟩
    · unfold iter_opendir
      rw [opendir_envD_step st]
      dsimp only
      exact hiter
    · rw [hlast]
      dsimp only
      rw [Nat.mod_add_mod]
      congr 1
      omega

/-- C5 counterexample: the claim that every handle returned by a
successful opendir is nonzero fails once the directory counter wraps.
Starting from a fresh state seeded at 0xaaaa (zero rng seed), after
2 ^ 64 - 0xaaaa - 1 successful opendir calls the counter sits at
2 ^ 64 - 1, and the next successful opendir returns the handle 0. -/
theorem handle_counter_wraps_to_zero :
    ∃ st1 st2,
      iter_opendir envD "r" "/" req0 (U64_MOD - 0xaaaa - 1) (RtFS.new envD) =
        Except.ok st1 ∧
      RtFS.opendir envD "r" st1 "/" req0 = Except.ok (Except.ok (0, 0), st2) := by
  have hseed : (RtFS.new envD).lastDirHandle = 0xaaaa := rfl
  have hM : (0 : Nat) < U64_MOD := by decide
  have hlt : (RtFS.new envD).lastDirHandle < U64_MOD := by
    rw [hseed]
    decide
  obtain ⟨st1, hiter, hlast⟩ :=
    iter_opendir_envD (U64_MOD - 0xaaaa - 1) (RtFS.new envD) hlt
  have haaaa : (0xaaaa : Nat) + 1 ≤ U64_MOD := by decide
  have hM1 : st1.lastDirHandle = U64_MOD - 1 := by
    rw [hlast, hseed]
    have h1 : 0xaaaa + (U64_MOD - 0xaaaa - 1) = U64_MOD - 1 := by omega
    rw [h1]
    exact Nat.mod_eq_of_lt (by omega)
  have h0 : (st1.lastDirHandle + 1) % U64_MOD = 0 := by
    rw [hM1, Nat.sub_add_cancel hM]
    exact Nat.mod_self _
  refine ⟨st1,
    { st1 with
        lastDirHandle := (st1.lastDirHandle + 1) % U64_MOD
        dirHandles := alist_insert st1.dirHandles
          ((st1.lastDirHandle + 1) % U64_MOD) fsiRoot },
    hiter, ?_⟩
  rw [opendir_envD_step st1, h0]
